import Mathlib

/-!
Verification development for the spoke voice-session layer.

The definitions below are a shallow embedding of the Rust sources:
`spoke-core/src/voice/audio.rs`, `spoke-core/src/voice/mod.rs` and the
`JoinVoice` arm of `spoke-app/src/bridge.rs`.  Pure computations (ring-buffer
pushes, the feeder's mute substitution, the output callback's slot filling,
the participant-list recomputation) are translated into Lean functions;
stateful control flow (`VoiceSession::connect` / `disconnect`, the bridge's
`JoinVoice` command arm) is translated into explicit state passing over
small state records, with the success or failure of each external call an
explicit boolean parameter.  `f32` sample values are modelled exactly over
`Rat`; none of the proved statements depends on floating-point rounding.
-/

namespace Spoke

/-- The ring-buffer cap from `audio.rs`: `while guard.len() > 192_000 { guard.pop_front(); }`
(about 2 seconds of 48 kHz stereo audio). -/
def RING_CAP : Nat := 192000

/-- The eviction loop of `AudioOutput::push_samples` (and of the remote-track
relay in `mod.rs`): pop from the front while the deque holds more than
`RING_CAP` samples. -/
def evict {α : Type} (buf : List α) : List α :=
  if h : buf.length > RING_CAP then evict buf.tail else buf
termination_by buf.length
decreasing_by
  simp only [List.length_tail]
  omega

/-- The per-sample conversion in `push_samples`: `s as f32 / i16::MAX as f32`,
modelled exactly over the rationals (`i16::MAX = 32767`). -/
def i16_to_f32 (s : Int) : Rat := (s : Rat) / 32767

/-- `AudioOutput::push_samples` from `audio.rs`: push each converted sample to
the back of the deque, then run the eviction loop. -/
def push_samples (buf : List Rat) (samples : List Int) : List Rat :=
  evict (samples.foldl (fun g s => g ++ [i16_to_f32 s]) buf)

/-- The remote-track relay body from `mod.rs` (`VoiceSession::connect`,
TrackSubscribed handler): for each sample of the frame push
`s as f32 / i16::MAX as f32`, then cap the buffer to `RING_CAP`. -/
def relay_push (buf : List Rat) (frame : List Int) : List Rat :=
  evict (frame.foldl (fun g s => g ++ [i16_to_f32 s]) buf)

theorem evict_eq_drop {α : Type} (buf : List α) :
    evict buf = buf.drop (buf.length - RING_CAP) := by
  generalize hn : buf.length = n
  induction n using Nat.strong_induction_on generalizing buf with
  | _ n ih =>
    rw [evict]
    split
    · next h =>
      rw [ih buf.tail.length (by simp only [List.length_tail, hn]; omega) buf.tail rfl]
      cases buf with
      | nil => simp only [List.length_nil] at h; omega
      | cons x rest =>
        simp only [List.tail_cons]
        simp only [List.length_cons] at hn
        have hx : n - RING_CAP = (rest.length - RING_CAP) + 1 := by
          simp only [List.length_cons] at h
          omega
        rw [hx, List.drop_succ_cons]
    · next h =>
      have hz : n - RING_CAP = 0 := by
        rw [hn] at h
        omega
      rw [hz, List.drop_zero]

theorem foldl_push_eq_append {α β : Type} (f : β → α) (samples : List β)
    (buf : List α) :
    samples.foldl (fun g s => g ++ [f s]) buf = buf ++ samples.map f := by
  induction samples generalizing buf with
  | nil => simp
  | cons s rest ih => simp [ih, List.append_assoc]

theorem push_samples_eq_drop (buf : List Rat) (samples : List Int) :
    push_samples buf samples =
      (buf ++ samples.map i16_to_f32).drop (buf.length + samples.length - RING_CAP) := by
  rw [push_samples, foldl_push_eq_append, evict_eq_drop]
  have hlen : (buf ++ samples.map i16_to_f32).length = buf.length + samples.length := by
    simp
  rw [hlen]

theorem push_samples_length_le (buf : List Rat) (samples : List Int) :
    (push_samples buf samples).length ≤ RING_CAP := by
  rw [push_samples_eq_drop]
  simp only [List.length_drop, List.length_append, List.length_map]
  omega

/-- Claim C1: every push into the playback ring buffer — via
`AudioOutput::push_samples` or the remote-track relay, whose push body is the
same computation — leaves the buffer length at most 192,000, keeps only the
most recent samples (so overflow evicts oldest-first: the result is the suffix
of `old buffer ++ new samples` that fits under the cap), and in particular
pushing 200,000 samples into an initially empty buffer leaves exactly the
192,000 samples numbered 8,001..200,000 of the input, in order. -/
theorem C1_ring_buffer_cap :
    (∀ (buf : List Rat) (samples : List Int),
        (push_samples buf samples).length ≤ 192000
        ∧ push_samples buf samples =
            (buf ++ samples.map i16_to_f32).drop (buf.length + samples.length - 192000)
        ∧ relay_push buf samples = push_samples buf samples)
    ∧ (∀ samples : List Int, samples.length = 200000 →
        push_samples [] samples = (samples.map i16_to_f32).drop 8000
        ∧ (push_samples [] samples).length = 192000) := by
  constructor
  · intro buf samples
    refine ⟨push_samples_length_le buf samples, push_samples_eq_drop buf samples, rfl⟩
  · intro samples hlen
    have h := push_samples_eq_drop [] samples
    simp only [List.length_nil, List.nil_append, Nat.zero_add, hlen, RING_CAP] at h
    norm_num at h
    constructor
    · rw [h]
    · rw [h]
      simp only [List.length_drop, List.length_map, hlen]

/-- Witness for C1 at the concrete input `0, 1, ..., 199999`. -/
theorem C1_ring_buffer_cap_witness :
    ((List.range 200000).map Int.ofNat).length = 200000
    ∧ push_samples [] ((List.range 200000).map Int.ofNat) =
        (((List.range 200000).map Int.ofNat).map i16_to_f32).drop 8000 := by
  refine ⟨by simp, ?_⟩
  exact (C1_ring_buffer_cap.2 ((List.range 200000).map Int.ofNat) (by simp)).1

/-- An outbound audio frame, `livekit::webrtc::audio_frame::AudioFrame` as
built by the feeder task in `AudioCapture::start`. -/
structure AudioFrame where
  data : List Int
  sample_rate : Nat
  num_channels : Nat
  samples_per_channel : Nat
  deriving DecidableEq, Repr

/-- The feeder-task loop body of `AudioCapture::start` (`audio.rs`): given the
captured PCM batch, compute `samples_per_channel = samples.len() / channels.max(1)`,
substitute a zero batch of the same length when muted, and wrap into a frame
tagged with the sample rate and channel count. -/
def feeder_frame (muted : Bool) (samples : List Int)
    (sample_rate channels : Nat) : AudioFrame :=
  let samples_per_channel := samples.length / max channels 1
  let data := if muted then List.replicate samples.length 0 else samples
  { data := data, sample_rate := sample_rate, num_channels := channels,
    samples_per_channel := samples_per_channel }

/-- Claim C2: when muted, the feeder task produces a frame whose samples are
all zero and whose length equals that of the captured batch (the length the
unmuted frame would have); when unmuted the frame carries the captured
samples unchanged. -/
theorem C2_mute_silence :
    ∀ (samples : List Int) (sr ch : Nat),
      (feeder_frame true samples sr ch).data = List.replicate samples.length 0
      ∧ (feeder_frame true samples sr ch).data.length
          = (feeder_frame false samples sr ch).data.length
      ∧ (feeder_frame false samples sr ch).data = samples := by
  intro samples sr ch
  refine ⟨rfl, ?_, rfl⟩
  simp [feeder_frame]

/-- Resources held by the process during and after `VoiceSession::connect`
(`mod.rs`): whether the mic-capture thread of `AudioCapture::start` is alive,
whether the output thread of `AudioOutput::new` is alive, whether the
room-event dispatch task was spawned, and whether the transport-room
connection is open. -/
structure Resources where
  captureThread : Bool
  outputThread : Bool
  eventTask : Bool
  roomOpen : Bool
  deriving DecidableEq, Repr

/-- The state before `connect` runs: nothing started. -/
def initRes : Resources :=
  { captureThread := false, outputThread := false, eventTask := false, roomOpen := false }

/-- The observable session value returned by `connect`: the atomic mute flag
(`AudioCapture.muted`, initialised to `false`) and whether a playback
pipeline (`AudioOutput`) was constructed. -/
structure SessionModel where
  muted : Bool
  hasOutput : Bool
  deriving DecidableEq, Repr

/-- `Room::connect` (external transport call): succeeds and opens the room
connection, or fails leaving the state unchanged.  Success is an explicit
parameter since the call is an external-dependency boundary. -/
def Room_connect (ok : Bool) (r : Resources) : Except Unit Unit × Resources :=
  if ok then (Except.ok (), { r with roomOpen := true }) else (Except.error (), r)

/-- `AudioCapture::start` (`audio.rs`): on success the dedicated mic thread is
alive when the call returns; on failure the spawned thread has already exited
(the ready rendezvous returned an error and the thread returned), so no
capture thread is left alive. -/
def AudioCapture_start (ok : Bool) (r : Resources) : Except Unit Unit × Resources :=
  if ok then (Except.ok (), { r with captureThread := true }) else (Except.error (), r)

/-- Dropping an `AudioCapture` handle drops its `_kill` sender, which makes the
mic thread's blocking `recv()` return and the thread exit, dropping the cpal
stream (`audio.rs` top comment and the `_kill` field doc). -/
def AudioCapture_drop (r : Resources) : Resources := { r with captureThread := false }

/-- Dropping the `Room` handle on an error path releases the transport-room
connection. -/
def Room_drop (r : Resources) : Resources := { r with roomOpen := false }

/-- `publish_track` (external transport call): succeeds or fails; it holds no
local resources of its own. -/
def publish_track (ok : Bool) : Except Unit Unit :=
  if ok then Except.ok () else Except.error ()

/-- `AudioOutput::new` (`audio.rs`): on success the dedicated output thread is
alive; on failure the spawned thread already exited before the error was
returned (same rendezvous discipline as capture). -/
def AudioOutput_new (ok : Bool) (r : Resources) : Except Unit Unit × Resources :=
  if ok then (Except.ok (), { r with outputThread := true }) else (Except.error (), r)

/-- `VoiceSession::connect` (`mod.rs`), as explicit state passing.  Each `?`
on a fallible step propagates the error after Rust's drop glue has dropped the
locals constructed so far (the capture handle and the room handle); the
playback pipeline is best-effort (`match` with a logged warning); finally the
room-event dispatch task is spawned and the session value returned with the
mute flag false. -/
def connect (room_ok capture_ok publish_ok output_ok : Bool) (r : Resources) :
    Except Unit SessionModel × Resources :=
  match Room_connect room_ok r with
  | (Except.error e, r1) => (Except.error e, r1)
  | (Except.ok _, r1) =>
    match AudioCapture_start capture_ok r1 with
    | (Except.error e, r2) => (Except.error e, Room_drop r2)
    | (Except.ok _, r2) =>
      match publish_track publish_ok with
      | Except.error e => (Except.error e, Room_drop (AudioCapture_drop r2))
      | Except.ok _ =>
        match AudioOutput_new output_ok r2 with
        | (Except.ok _, r3) =>
          (Except.ok { muted := false, hasOutput := true }, { r3 with eventTask := true })
        | (Except.error _, r3) =>
          (Except.ok { muted := false, hasOutput := false }, { r3 with eventTask := true })

/-- `VoiceSession::set_muted`: an atomic store into the capture mute flag. -/
def set_muted (s : SessionModel) (muted : Bool) : SessionModel := { s with muted := muted }

/-- `VoiceSession::is_muted`: an atomic load of the capture mute flag. -/
def is_muted (s : SessionModel) : Bool := s.muted

theorem connect_fail_cases (ro co po oo : Bool) :
    (ro && co && po) = true
    ∨ connect ro co po oo initRes = (Except.error (), initRes) := by
  cases ro <;> cases co <;> cases po <;> cases oo <;>
    first
      | exact Or.inl rfl
      | exact Or.inr rfl

theorem connect_result (ro co po oo : Bool) :
    (connect ro co po oo initRes).1 = Except.error ()
    ∨ (connect ro co po oo initRes).1 = Except.ok { muted := false, hasOutput := oo } := by
  cases ro <;> cases co <;> cases po <;> cases oo <;>
    first
      | exact Or.inl rfl
      | exact Or.inr rfl

/-- Claim C3: if any hard-required step of `connect` (transport-room connect,
capture start, local-track publish) fails, `connect` returns an error and the
final resource state equals the initial one — no capture thread alive, no
room connection, no tasks.  The last conjunct records that on the
publish-failure path the capture thread had been started (alive after
`AudioCapture::start`) and is torn down by the drop of the capture handle
before the error is returned. -/
theorem C3_connect_failure_cleanup :
    ∀ room_ok capture_ok publish_ok output_ok : Bool,
      ¬(room_ok = true ∧ capture_ok = true ∧ publish_ok = true) →
        connect room_ok capture_ok publish_ok output_ok initRes
            = (Except.error (), initRes)
        ∧ (connect room_ok capture_ok publish_ok output_ok initRes).2.captureThread = false
        ∧ (AudioCapture_start true { initRes with roomOpen := true }).2.captureThread = true := by
  intro ro co po oo h
  rcases connect_fail_cases ro co po oo with hc | hc
  · rw [Bool.and_eq_true, Bool.and_eq_true] at hc
    exact absurd ⟨hc.1.1, hc.1.2, hc.2⟩ h
  · refine ⟨hc, ?_, rfl⟩
    rw [hc]
    rfl

/-- Witness for C3 at the publish-failure input. -/
theorem C3_connect_failure_cleanup_witness :
    ¬(true = true ∧ true = true ∧ false = true)
    ∧ connect true true false true initRes = (Except.error (), initRes) := by
  refine ⟨by decide, ?_⟩
  exact (C3_connect_failure_cleanup true true false true (by decide)).1

/-- The observable state of a constructed `VoiceSession` value as
`disconnect` sees it: the dispatch task, the room connection, and whether the
capture/playback handles are still held (their drop is what tears the
hardware threads down). -/
structure SessionState where
  eventTask : Bool
  roomOpen : Bool
  captureHandleHeld : Bool
  outputHandleHeld : Bool
  deriving DecidableEq, Repr

/-- `VoiceSession::disconnect` (`mod.rs`): aborts the room-event dispatch task
and closes the room connection; a close error is logged, never propagated
(hence the result does not depend on `close_ok` and the function cannot
fail).  It takes the session by reference, so the capture and playback
handles are untouched. -/
def disconnect (close_ok : Bool) (s : SessionState) : SessionState :=
  { s with eventTask := false, roomOpen := false }

/-- Dropping the `VoiceSession` value itself (as the callers in `bridge.rs` do
right after `disconnect`, via `voice.take()`): the `AudioCapture` and
`AudioOutput` fields are dropped, releasing their kill senders and hence their
hardware threads. -/
def VoiceSession_drop (s : SessionState) : SessionState :=
  { s with captureHandleHeld := false, outputHandleHeld := false }

/-- Counterexample to claim C4 as stated: `disconnect` does not drop the
Capture handle.  Starting from a fully live session, after `disconnect` the
capture handle is still held (`disconnect` borrows the session; the handles
are only dropped with the session value itself). -/
theorem C4_counterexample :
    ¬((disconnect true
        { eventTask := true, roomOpen := true,
          captureHandleHeld := true, outputHandleHeld := true }).captureHandleHeld = false) := by
  decide

/-- Claim C4 as amended: `disconnect` cancels the room-event dispatch task and
closes the transport-room connection, with close errors logged and not
propagated (the result is independent of the close outcome); it is idempotent;
it leaves the Capture/Playback handles held — they are dropped when the
session value itself is dropped (which every call site does immediately after
`disconnect`), and that drop is what triggers the hardware threads'
teardown. -/
theorem C4_disconnect_amended :
    ∀ (ok ok2 : Bool) (s : SessionState),
      (disconnect ok s).eventTask = false
      ∧ (disconnect ok s).roomOpen = false
      ∧ disconnect ok s = disconnect ok2 s
      ∧ disconnect ok2 (disconnect ok s) = disconnect ok s
      ∧ (disconnect ok s).captureHandleHeld = s.captureHandleHeld
      ∧ (disconnect ok s).outputHandleHeld = s.outputHandleHeld
      ∧ (VoiceSession_drop (disconnect ok s)).captureHandleHeld = false
      ∧ (VoiceSession_drop (disconnect ok s)).outputHandleHeld = false := by
  intro ok ok2 s
  cases s
  exact ⟨rfl, rfl, rfl, rfl, rfl, rfl, rfl, rfl⟩

/-- Claim C6: playback-pipeline construction failure is non-fatal.  With the
three hard-required steps succeeding and `AudioOutput::new` failing, `connect`
still returns a session, in capture-only mode (`hasOutput = false`), with the
capture thread and dispatch task running; and for either output outcome the
result is a successful session, never a session abort. -/
theorem C6_output_best_effort :
    connect true true true false initRes
        = (Except.ok { muted := false, hasOutput := false },
           { captureThread := true, outputThread := false,
             eventTask := true, roomOpen := true })
    ∧ ∀ output_ok : Bool,
        (connect true true true output_ok initRes).1
          = Except.ok { muted := false, hasOutput := output_ok } := by
  refine ⟨rfl, ?_⟩
  intro oo
  cases oo <;> rfl

/-- Claim C9: any successful `connect` returns a session whose mute flag reads
false (sessions start unmuted), and after `set_muted b` with no intervening
store, `is_muted` returns `b`. -/
theorem C9_mute_flag :
    (∀ (ro co po oo : Bool) (s : SessionModel),
        (connect ro co po oo initRes).1 = Except.ok s → is_muted s = false)
    ∧ (∀ (s : SessionModel) (b : Bool), is_muted (set_muted s b) = b) := by
  constructor
  · intro ro co po oo s h
    rcases connect_result ro co po oo with hc | hc
    · rw [hc] at h
      exact Except.noConfusion h
    · rw [hc] at h
      injection h with h2
      rw [← h2]
      rfl
  · intro s b
    rfl

/-- Witness for C9 at a concrete successful connect. -/
theorem C9_mute_flag_witness :
    (connect true true true true initRes).1 = Except.ok { muted := false, hasOutput := true }
    ∧ is_muted { muted := false, hasOutput := true } = false := by
  refine ⟨rfl, ?_⟩
  exact C9_mute_flag.1 true true true true { muted := false, hasOutput := true } rfl

/-- The room events the dispatch task of `VoiceSession::connect` matches on:
participant connected/disconnected (with the participant's name), and the
wildcard arm for every other event kind. -/
inductive RoomEventM where
  | participantConnected (name : String)
  | participantDisconnected (name : String)
  | otherEvent
  deriving DecidableEq, Repr

/-- Modelled from the spec: the transport room's live membership map
(`room.remote_participants()`, maintained by the transport library outside
this repository).  Per the spec the dispatch task "recomputes the full
participant name list from current room membership"; membership is modelled
as an insertion-ordered name list: a connect appends the participant, a
disconnect removes it, other events leave membership unchanged. -/
def membershipApply (m : List String) : RoomEventM → List String
  | RoomEventM.participantConnected n => m ++ [n]
  | RoomEventM.participantDisconnected n => m.filter (fun x => x != n)
  | RoomEventM.otherEvent => m

/-- The room-event dispatch task of `VoiceSession::connect` (`mod.rs`),
restricted to its participant handling: on `ParticipantConnected` or
`ParticipantDisconnected` it recomputes the full name list from the (already
updated) room membership and emits it as a `ParticipantsUpdated`
notification; all other events emit nothing.  Returns the list of emitted
notifications, in order. -/
def dispatch_emissions (m : List String) : List RoomEventM → List (List String)
  | [] => []
  | e :: rest =>
    let m2 := membershipApply m e
    match e with
    | RoomEventM.participantConnected _ => m2 :: dispatch_emissions m2 rest
    | RoomEventM.participantDisconnected _ => m2 :: dispatch_emissions m2 rest
    | RoomEventM.otherEvent => dispatch_emissions m2 rest

/-- Claim C5: on the event stream Connected("bob"), Connected("ana"),
Disconnected("bob") from empty membership, the emitted ParticipantsUpdated
notifications are exactly ["bob"], ["bob","ana"], ["ana"], in order, each the
full recomputed name list. -/
theorem C5_participant_emissions :
    dispatch_emissions []
        [RoomEventM.participantConnected "bob",
         RoomEventM.participantConnected "ana",
         RoomEventM.participantDisconnected "bob"]
      = [["bob"], ["bob", "ana"], ["ana"]] := by
  decide

/-- The Rust saturating numeric cast `(f * i16::MAX as f32) as i16` used by
the I16 output callback: scale by 32767, saturate to the i16 range, and
truncate toward zero. -/
def f32_as_i16 (x : Rat) : Int :=
  let y := x * 32767
  if y ≤ -32768 then -32768
  else if (32767 : Rat) ≤ y then 32767
  else if 0 ≤ y then Int.floor y else Int.ceil y

/-- The F32 output callback of `build_output_stream` (`audio.rs`): for each of
the `slots` output slots, `*s = g.pop_front().unwrap_or(0.0)`.  Returns the
slot contents written and the ring buffer left behind. -/
def output_callback_f32 : List Rat → Nat → List Rat × List Rat
  | b, 0 => ([], b)
  | [], Nat.succ n =>
    let r := output_callback_f32 [] n
    ((0 : Rat) :: r.1, r.2)
  | x :: rest, Nat.succ n =>
    let r := output_callback_f32 rest n
    (x :: r.1, r.2)

/-- The I16 output callback of `build_output_stream` (`audio.rs`): for each
output slot, `*s = g.pop_front().map(|f| (f * i16::MAX as f32) as i16).unwrap_or(0)`. -/
def output_callback_i16 : List Rat → Nat → List Int × List Rat
  | b, 0 => ([], b)
  | [], Nat.succ n =>
    let r := output_callback_i16 [] n
    ((0 : Int) :: r.1, r.2)
  | x :: rest, Nat.succ n =>
    let r := output_callback_i16 rest n
    (f32_as_i16 x :: r.1, r.2)

theorem output_callback_f32_spec (slots : Nat) (buf : List Rat) :
    (output_callback_f32 buf slots).1
        = buf.take slots ++ List.replicate (slots - buf.length) (0 : Rat)
    ∧ (output_callback_f32 buf slots).2 = buf.drop slots := by
  induction slots generalizing buf with
  | zero => simp [output_callback_f32]
  | succ n ih =>
    cases buf with
    | nil =>
      simp [output_callback_f32, (ih []).1, (ih []).2, List.replicate_succ]
    | cons x rest =>
      simp [output_callback_f32, (ih rest).1, (ih rest).2, Nat.succ_sub_succ]

theorem output_callback_i16_spec (slots : Nat) (buf : List Rat) :
    (output_callback_i16 buf slots).1
        = (buf.take slots).map f32_as_i16 ++ List.replicate (slots - buf.length) (0 : Int)
    ∧ (output_callback_i16 buf slots).2 = buf.drop slots := by
  induction slots generalizing buf with
  | zero => simp [output_callback_i16]
  | succ n ih =>
    cases buf with
    | nil =>
      simp [output_callback_i16, (ih []).1, (ih []).2, List.replicate_succ]
    | cons x rest =>
      simp [output_callback_i16, (ih rest).1, (ih rest).2, Nat.succ_sub_succ]

/-- Claim C7: each invocation of the hardware output callback fills every
output slot by popping one sample from the front of the shared ring buffer
(in both the F32 and the I16 device-format branches, the latter applying the
saturating i16 conversion); once the buffer runs out the remaining slots are
filled with the silence value 0, and the buffer left behind is exactly the
original minus the popped prefix — the callback is a total function of the
buffer (no blocking) and no previously played sample is replayed. -/
theorem C7_output_callback :
    ∀ (buf : List Rat) (slots : Nat),
      (output_callback_f32 buf slots).1
          = buf.take slots ++ List.replicate (slots - buf.length) (0 : Rat)
      ∧ (output_callback_f32 buf slots).2 = buf.drop slots
      ∧ (output_callback_i16 buf slots).1
          = (buf.take slots).map f32_as_i16 ++ List.replicate (slots - buf.length) (0 : Int)
      ∧ (output_callback_i16 buf slots).2 = buf.drop slots := by
  intro buf slots
  obtain ⟨h1, h2⟩ := output_callback_f32_spec slots buf
  obtain ⟨h3, h4⟩ := output_callback_i16_spec slots buf
  exact ⟨h1, h2, h3, h4⟩

/-- One iteration of the remote-track relay loop (`mod.rs`): the relay holds
`buf : Option` — `Some` shared ring buffer when playback was constructed,
`None` in capture-only mode.  `if let Some(ref b) = buf` pushes the frame's
samples and caps the buffer; with `None` the frame is consumed and its
samples discarded. -/
def relay_step (buf : Option (List Rat)) (frame : List Int) : Option (List Rat) :=
  match buf with
  | none => none
  | some g => some (relay_push g frame)

/-- The relay task's `while let Some(frame) = stream.next().await` loop over
the finite sequence of frames its stream delivers before closing. -/
def relay_run (buf : Option (List Rat)) (frames : List (List Int)) : Option (List Rat) :=
  frames.foldl relay_step buf

/-- Claim C10: with the playback pipeline absent the relay task still consumes
its whole frame stream but the samples go nowhere — the state stays `none`
after any frame sequence, unconditionally; with a playback buffer present the
same loop folds the capped pushes over it. -/
theorem C10_relay_no_output :
    (∀ frames : List (List Int), relay_run none frames = none)
    ∧ (∀ (g : List Rat) (frames : List (List Int)),
        relay_run (some g) frames = some (frames.foldl relay_push g)) := by
  constructor
  · intro frames
    induction frames with
    | nil => rfl
    | cons f rest ih => simpa [relay_run, relay_step] using ih
  · intro g frames
    induction frames generalizing g with
    | nil => rfl
    | cons f rest ih => simpa [relay_run, relay_step] using ih (relay_push g f)

/-- The externally visible actions of the `AppCommand::JoinVoice` arm of
`matrix_task` (`bridge.rs`), in program order. -/
inductive BridgeAction where
  | disconnectOld
  | errorEvent
  | sendJoin
  | warnSendFailed
  | requestToken
  | mediaConnect
  | voiceJoinedEvent
  deriving DecidableEq, Repr

/-- The environment a `JoinVoice` command runs against: whether a previous
voice session exists, whether a matrix session (access token) is available,
whether the target `room_id` parses and is found in the client store, and
whether the join-event send, the sidecar token request, and
`VoiceSession::connect` succeed. -/
structure BridgeEnv where
  hadOldSession : Bool
  loggedIn : Bool
  roomResolvable : Bool
  sendOk : Bool
  sidecarOk : Bool
  connectOk : Bool
  deriving DecidableEq, Repr

/-- Result of one `JoinVoice` arm: the action trace, the session id carried by
the attempted Join send (if one was attempted), and the generator state. -/
structure JoinVoiceResult where
  trace : List BridgeAction
  sentId : Option Nat
  nextId : Nat
  deriving DecidableEq, Repr

/-- The `AppCommand::JoinVoice` arm of `matrix_task` (`bridge.rs`): tear down
any previous session; abort with an error event if not logged in; generate a
fresh `session_id` (`uuid::Uuid::new_v4()` — modelled from the spec: a fresh
random token never reused across invocations, embedded as a fresh-nonce
counter, the uuid library being outside this repository); send the
`org.spoke.voice.join` event if the room id parses and the room is found,
logging (not propagating) a send failure; request a transport token from the
sidecar, aborting with an error event on failure; then attempt
`VoiceSession::connect`, emitting `VoiceJoined` on success and an error event
on failure. -/
def joinVoice (env : BridgeEnv) (nextId : Nat) : JoinVoiceResult :=
  let pre := if env.hadOldSession then [BridgeAction.disconnectOld] else []
  if env.loggedIn = false then
    { trace := pre ++ [BridgeAction.errorEvent], sentId := none, nextId := nextId }
  else
    let sid := nextId
    let sendActs :=
      if env.roomResolvable then
        if env.sendOk then [BridgeAction.sendJoin]
        else [BridgeAction.sendJoin, BridgeAction.warnSendFailed]
      else []
    let sent := if env.roomResolvable then some sid else none
    let tail :=
      if env.sidecarOk = false then [BridgeAction.requestToken, BridgeAction.errorEvent]
      else
        [BridgeAction.requestToken, BridgeAction.mediaConnect] ++
          (if env.connectOk then [BridgeAction.voiceJoinedEvent]
           else [BridgeAction.errorEvent])
    { trace := pre ++ sendActs ++ tail, sentId := sent, nextId := nextId + 1 }

/-- Counterexample to claim C8 as stated: a `JoinVoice` command whose target
room is not found in the client store (client logged in, sidecar and connect
healthy) attempts the media connection without ever sending a Join message. -/
theorem C8_counterexample :
    BridgeAction.mediaConnect ∈
        (joinVoice
          { hadOldSession := false, loggedIn := true, roomResolvable := false,
            sendOk := true, sidecarOk := true, connectOk := true } 0).trace
    ∧ BridgeAction.sendJoin ∉
        (joinVoice
          { hadOldSession := false, loggedIn := true, roomResolvable := false,
            sendOk := true, sidecarOk := true, connectOk := true } 0).trace := by
  decide

/-- Claim C8 as amended: on every `JoinVoice` command issued while logged in
and whose target room resolves in the client store, a Join message (carrying
the fresh session id) is sent before the media connection is attempted —
every trace action preceding the first `mediaConnect` includes the
`sendJoin`; the session id is freshly generated and two consecutive
invocations that both attempt a send never carry the same id; and a send
failure changes neither whether the media connection is attempted nor the id
sent (it is logged, the join proceeds). -/
theorem C8_join_signaling_amended :
    (∀ (env : BridgeEnv) (n : Nat),
        env.loggedIn = true → env.roomResolvable = true →
          BridgeAction.sendJoin ∈ (joinVoice env n).trace
          ∧ ((joinVoice env n).trace.takeWhile
                (fun a => a != BridgeAction.mediaConnect)).contains
              BridgeAction.sendJoin = true
          ∧ (joinVoice env n).sentId = some n)
    ∧ (∀ (env1 env2 : BridgeEnv) (n a b : Nat),
        (joinVoice env1 n).sentId = some a →
        (joinVoice env2 (joinVoice env1 n).nextId).sentId = some b →
        a ≠ b)
    ∧ (∀ (env : BridgeEnv) (n : Nat),
        (BridgeAction.mediaConnect ∈ (joinVoice { env with sendOk := false } n).trace
          ↔ BridgeAction.mediaConnect ∈ (joinVoice { env with sendOk := true } n).trace)
        ∧ (joinVoice { env with sendOk := false } n).sentId
            = (joinVoice { env with sendOk := true } n).sentId) := by
  refine ⟨?_, ?_, ?_⟩
  · intro env n h1 h2
    rcases env with ⟨ho, hl, hr, hs, hsc, hc⟩
    cases ho <;> cases hl <;> cases hr <;> cases hs <;> cases hsc <;> cases hc <;>
      first
        | exact Bool.noConfusion h1
        | exact Bool.noConfusion h2
        | exact ⟨of_decide_eq_true rfl, rfl, rfl⟩
  · intro env1 env2 n a b h1 h2
    rcases env1 with ⟨ho1, hl1, hr1, hs1, hsc1, hc1⟩
    rcases env2 with ⟨ho2, hl2, hr2, hs2, hsc2, hc2⟩
    cases hl1 <;> cases hr1 <;> cases hl2 <;> cases hr2 <;>
      first
        | exact Option.noConfusion h1
        | exact Option.noConfusion h2
        | (have h1b : Option.some n = Option.some a := h1
           have h2b : Option.some (n + 1) = Option.some b := h2
           injection h1b with ha
           injection h2b with hb
           omega)
  · intro env n
    rcases env with ⟨ho, hl, hr, hs, hsc, hc⟩
    cases ho <;> cases hl <;> cases hr <;> cases hsc <;> cases hc <;>
      exact ⟨of_decide_eq_true rfl, rfl⟩

/-- Witness for C8's amended theorem at concrete inputs: a healthy logged-in
join with a resolvable room sends before connecting, and two consecutive
joins carry the distinct ids 0 and 1. -/
theorem C8_join_signaling_amended_witness :
    (({ hadOldSession := false, loggedIn := true, roomResolvable := true,
        sendOk := true, sidecarOk := true, connectOk := true } : BridgeEnv).loggedIn = true
      ∧ BridgeAction.sendJoin ∈
          (joinVoice
            { hadOldSession := false, loggedIn := true, roomResolvable := true,
              sendOk := true, sidecarOk := true, connectOk := true } 0).trace)
    ∧ (0 : Nat) ≠ 1 := by
  constructor
  · refine ⟨rfl, ?_⟩
    exact (C8_join_signaling_amended.1
      { hadOldSession := false, loggedIn := true, roomResolvable := true,
        sendOk := true, sidecarOk := true, connectOk := true } 0 rfl rfl).1
  · exact C8_join_signaling_amended.2.1
      { hadOldSession := false, loggedIn := true, roomResolvable := true,
        sendOk := true, sidecarOk := true, connectOk := true }
      { hadOldSession := false, loggedIn := true, roomResolvable := true,
        sendOk := true, sidecarOk := true, connectOk := true }
      0 0 1 rfl rfl

end Spoke
